import Mathlib

/-!
Verification of the adblock binding module (src/c/adblock.c) and the
filtering engine it drives.  The binding layer (AdBlock_parse,
AdBlock_matches, AdBlock_save, AdBlock_load, AdBlock_dealloc/init) is
translated directly from src/c/adblock.c; the engine itself
(AdBlockClient in ad_block_client.{h,cc}) is not part of the sources, so
its operations are modelled from the specification (rule model, rule
parser, matcher, serializer) and marked as such.
Machine strings are modelled as lists of characters, file contents as
lists of natural-number bytes, and the Python GIL discipline as an
explicit event trace emitted by every binding operation.
-/

namespace Adblock

/-- A token of a filter pattern: literal run, wildcard, separator
anchor, start/end anchor, or domain anchor (spec section 3 and 9). -/
inductive PatToken where
  | lit : List Char → PatToken
  | wild : PatToken
  | sep : PatToken
  | startAnchor : PatToken
  | endAnchor : PatToken
  | domainAnchor : PatToken
deriving DecidableEq, Repr

/-- Third-party constraint of a rule (spec section 3). -/
inductive ThirdParty where
  | any : ThirdParty
  | firstOnly : ThirdParty
  | thirdOnly : ThirdParty
deriving DecidableEq, Repr

/-- Resource kinds of the resource-type mask (spec section 3). -/
inductive ResourceType where
  | script : ResourceType
  | image : ResourceType
  | stylesheet : ResourceType
  | xhr : ResourceType
  | other : ResourceType
deriving DecidableEq, Repr

/-- Resource-type bitset of a rule (spec section 3): one flag per kind. -/
structure ResourceMask where
  script : Bool
  image : Bool
  stylesheet : Bool
  xhr : Bool
  other : Bool
deriving DecidableEq, Repr

def allMask : ResourceMask := ⟨true, true, true, true, true⟩

def noMask : ResourceMask := ⟨false, false, false, false, false⟩

def maskGet (m : ResourceMask) : ResourceType → Bool
  | ResourceType.script => m.script
  | ResourceType.image => m.image
  | ResourceType.stylesheet => m.stylesheet
  | ResourceType.xhr => m.xhr
  | ResourceType.other => m.other

def maskSet (m : ResourceMask) : ResourceType → Bool → ResourceMask
  | ResourceType.script, v => { m with script := v }
  | ResourceType.image, v => { m with image := v }
  | ResourceType.stylesheet, v => { m with stylesheet := v }
  | ResourceType.xhr, v => { m with xhr := v }
  | ResourceType.other, v => { m with other := v }

/-- Rule model (spec section 3): pattern tokens, exception flag, domain
include/exclude sets, third-party tristate, resource mask, shortcut. -/
structure Rule where
  pattern : List PatToken
  is_exception : Bool
  domain_include : List (List Char)
  domain_exclude : List (List Char)
  third_party : ThirdParty
  resource_mask : ResourceMask
  shortcut : Option (List Char)
deriving DecidableEq, Repr

/-- One partition of the Index (spec section 3): rules grouped by
shortcut key plus a generic fallback bucket. -/
structure Bucket where
  byKey : List (List Char × List Rule)
  generic : List Rule
deriving DecidableEq, Repr

/-- The Index (spec section 3): block and exception partitions. -/
structure Index where
  block : Bucket
  exceptions : Bucket
deriving DecidableEq, Repr

def emptyBucket : Bucket := ⟨[], []⟩

def emptyIndex : Index := ⟨emptyBucket, emptyBucket⟩

/- ----------------------------------------------------------------
   Character-list utilities (the model of C strings).
   ---------------------------------------------------------------- -/

/-- Boolean check that the first list is an initial segment of the second. -/
def isPre : List Char → List Char → Bool
  | [], _ => true
  | _ :: _, [] => false
  | a :: as, b :: bs => a == b && isPre as bs

/-- Boolean check that `pat` occurs as a contiguous run inside `s`. -/
def containsPat (pat : List Char) : List Char → Bool
  | [] => isPre pat []
  | c :: cs => isPre pat (c :: cs) || containsPat pat cs

/-- Split a character list at every occurrence of the character `c`. -/
def splitOnChar (c : Char) : List Char → List (List Char)
  | [] => [[]]
  | a :: as =>
    let r := splitOnChar c as
    if a == c then [] :: r
    else
      match r with
      | [] => [[a]]
      | g :: gs => (a :: g) :: gs

/-- Join groups with a single separating character (inverse of split). -/
def joinWith (c : Char) : List (List Char) → List Char
  | [] => []
  | [x] => x
  | x :: xs => x ++ c :: joinWith c xs

/-- The suffix following the first occurrence of `pat`, when present. -/
def afterPat (pat : List Char) : List Char → Option (List Char)
  | [] => if pat.isEmpty then some [] else none
  | c :: cs =>
    if isPre pat (c :: cs) then some ((c :: cs).drop pat.length)
    else afterPat pat cs

/-- Boolean check that `s` ends with `pat`. -/
def endsWithL (s pat : List Char) : Bool := isPre pat.reverse s.reverse

/-- Line boundaries of filter text (spec section 4.1: lines split at a
newline character). -/
def linesOf (cs : List Char) : List (List Char) := splitOnChar '\n' cs

/- ----------------------------------------------------------------
   Rule parser.  Modelled from the spec (section 4.1): the engine's
   AdBlockClient::parse lives in ad_block_client.cc, which is not
   among the sources.
   ---------------------------------------------------------------- -/

/-- Modelled from the spec: tokenize the body of a pattern, with `*` a
wildcard, `^` a separator anchor, and every other character a literal
(section 4.1, anchor bullet). -/
def tokenizeBody : List Char → List PatToken
  | [] => []
  | c :: cs =>
    if c == '*' then PatToken.wild :: tokenizeBody cs
    else if c == '^' then PatToken.sep :: tokenizeBody cs
    else
      match tokenizeBody cs with
      | PatToken.lit s :: ts => PatToken.lit (c :: s) :: ts
      | ts => PatToken.lit [c] :: ts

/-- Modelled from the spec: recognize the `||`, leading `|` and trailing
`|` anchors, then tokenize the remaining body (section 4.1). -/
def tokenizePattern (p : List Char) : List PatToken :=
  let (st, rest) :=
    if isPre ['|', '|'] p then ([PatToken.domainAnchor], p.drop 2)
    else if isPre ['|'] p then ([PatToken.startAnchor], p.drop 1)
    else (([] : List PatToken), p)
  let (core, en) :=
    match rest.reverse with
    | '|' :: mid => (mid.reverse, [PatToken.endAnchor])
    | _ => (rest, ([] : List PatToken))
  st ++ tokenizeBody core ++ en

/-- Modelled from the spec: the shortcut key is the longest literal run
of at least 3 characters, leftmost on ties (section 4.1). -/
def shortcutOf (toks : List PatToken) : Option (List Char) :=
  toks.foldl
    (fun best t =>
      match t with
      | PatToken.lit s =>
        if 3 ≤ s.length ∧ (match best with | none => 0 | some b => b.length) < s.length
        then some s else best
      | _ => best)
    none

/-- A fresh rule with default options (resource mask = all, third-party
= any, empty domain sets), as spec section 3 prescribes. -/
def baseRule (toks : List PatToken) (isExc : Bool) : Rule :=
  { pattern := toks, is_exception := isExc, domain_include := [],
    domain_exclude := [], third_party := ThirdParty.any,
    resource_mask := allMask, shortcut := shortcutOf toks }

/-- Recognized resource-type option keywords (spec section 4.1). -/
def resourceKw (tok : List Char) : Option ResourceType :=
  if tok == "script".data then some ResourceType.script
  else if tok == "image".data then some ResourceType.image
  else if tok == "stylesheet".data then some ResourceType.stylesheet
  else if tok == "xmlhttprequest".data then some ResourceType.xhr
  else if tok == "other".data then some ResourceType.other
  else none

/-- Accumulator for option folding: the rule being built, and whether a
positive resource keyword has been seen (the first positive keyword
narrows the default all-mask to just the listed kinds). -/
structure OptAcc where
  rule : Rule
  positiveSeen : Bool

/-- Modelled from the spec: the `domain=` option value, a `|`-separated
list where a `~`-led entry means exclude (section 4.1). -/
def applyDomains (r : Rule) (ds : List (List Char)) : Rule :=
  ds.foldl
    (fun r d =>
      match d with
      | '~' :: d2 => { r with domain_exclude := r.domain_exclude ++ [d2] }
      | _ => { r with domain_include := r.domain_include ++ [d] })
    r

/-- Modelled from the spec: apply one comma-separated option token;
unrecognized keys are ignored, never fatal (section 4.1). -/
def applyOpt (acc : OptAcc) (tok : List Char) : OptAcc :=
  if isPre "domain=".data tok then
    { acc with rule := applyDomains acc.rule (splitOnChar '|' (tok.drop 7)) }
  else if tok == "third-party".data then
    { acc with rule := { acc.rule with third_party := ThirdParty.thirdOnly } }
  else if tok == "~third-party".data then
    { acc with rule := { acc.rule with third_party := ThirdParty.firstOnly } }
  else
    match tok with
    | '~' :: tok2 =>
      match resourceKw tok2 with
      | some t =>
        { acc with rule :=
            { acc.rule with resource_mask := maskSet acc.rule.resource_mask t false } }
      | none => acc
    | _ =>
      match resourceKw tok with
      | some t =>
        let m0 := if acc.positiveSeen then acc.rule.resource_mask else noMask
        { rule := { acc.rule with resource_mask := maskSet m0 t true },
          positiveSeen := true }
      | none => acc

def applyOpts (r : Rule) (opts : List (List Char)) : Rule :=
  (opts.foldl applyOpt { rule := r, positiveSeen := false }).rule

/-- Split a line at its last `$` into pattern and options suffix. -/
def splitLastDollar (cs : List Char) : List Char × Option (List Char) :=
  match (splitOnChar '$' cs).reverse with
  | [] => (cs, none)
  | [_] => (cs, none)
  | o :: restRev => (joinWith '$' restRev.reverse, some o)

/-- Modelled from the spec: parse one filter line into a rule, or skip
it (section 4.1): blank lines, `!` comments and cosmetic `##`/`#@#`
lines are skipped, `@@` marks an exception, `$` introduces options. -/
def parseLine (l : List Char) : Option Rule :=
  if l.isEmpty then none
  else if isPre ['!'] l then none
  else if containsPat ['#', '#'] l || containsPat ['#', '@', '#'] l then none
  else
    let (isExc, body) :=
      if isPre ['@', '@'] l then (true, l.drop 2) else (false, l)
    let (patCs, optPart) := splitLastDollar body
    let opts := match optPart with | none => [] | some o => splitOnChar ',' o
    if patCs.isEmpty then none
    else
      let toks := tokenizePattern patCs
      if toks.isEmpty then none
      else some (applyOpts (baseRule toks isExc) opts)

/- ----------------------------------------------------------------
   Index insertion and the line-by-line parse loop.
   ---------------------------------------------------------------- -/

def addToKey : List (List Char × List Rule) → List Char → Rule →
    List (List Char × List Rule)
  | [], k, r => [(k, [r])]
  | (k2, rs) :: rest, k, r =>
    if k2 == k then (k2, rs ++ [r]) :: rest
    else (k2, rs) :: addToKey rest k r

/-- Append a rule into a partition: routed by its shortcut key, or into
the generic fallback bucket when no shortcut qualifies (spec 4.1). -/
def bucketInsert (b : Bucket) (r : Rule) : Bucket :=
  match r.shortcut with
  | none => { b with generic := b.generic ++ [r] }
  | some k => { b with byKey := addToKey b.byKey k r }

/-- Insert a rule into the exception or block partition of the Index. -/
def indexInsert (i : Index) (r : Rule) : Index :=
  if r.is_exception then { i with exceptions := bucketInsert i.exceptions r }
  else { i with block := bucketInsert i.block r }

/-- Modelled from the spec: process the lines one by one, merging each
parsed rule into the Index and counting skipped lines (section 4.1). -/
def engineParseLines : List (List Char) → Index × Nat × Nat → Index × Nat × Nat
  | [], acc => acc
  | l :: ls, (i, a, sk) =>
    match parseLine l with
    | some r => engineParseLines ls (indexInsert i r, a + 1, sk)
    | none => engineParseLines ls (i, a, sk + 1)

/-- Modelled from the spec: AdBlockClient::parse — the whole-text parse,
returning the updated Index with (rules added, lines skipped). -/
def engineParse (text : List Char) (i : Index) : Index × Nat × Nat :=
  engineParseLines (linesOf text) (i, 0, 0)

/- ----------------------------------------------------------------
   Matcher.  Modelled from the spec (section 4.2): the engine's
   AdBlockClient::matches lives in ad_block_client.cc, which is not
   among the sources.
   ---------------------------------------------------------------- -/

/-- Modelled from the spec: a separator (matched by `^`) is anything
that is not a letter, digit, `-`, `.`, `_` or `~` (section 4.1). -/
def isSepChar (c : Char) : Bool :=
  !(c.isAlphanum || c == '-' || c == '.' || c == '_' || c == '~')

/-- Modelled from the spec: evaluate a token sequence against a suffix
of the URL; `*` matches any run, `^` one separator or end-of-string,
a trailing `|` the very end (sections 4.1 and 9). -/
def matchSeq : List PatToken → List Char → Bool
  | [], _ => true
  | PatToken.startAnchor :: ts, cs => matchSeq ts cs
  | PatToken.domainAnchor :: ts, cs => matchSeq ts cs
  | PatToken.endAnchor :: ts, cs => cs.isEmpty && matchSeq ts cs
  | PatToken.sep :: ts, [] => matchSeq ts []
  | PatToken.sep :: ts, c :: cs => isSepChar c && matchSeq ts cs
  | PatToken.lit l :: ts, cs => isPre l cs && matchSeq ts (cs.drop l.length)
  | PatToken.wild :: ts, [] => matchSeq ts []
  | PatToken.wild :: ts, c :: cs =>
    matchSeq ts (c :: cs) || matchSeq (PatToken.wild :: ts) cs
termination_by ts cs => ts.length + cs.length
decreasing_by
  all_goals simp_wf
  all_goals omega

/-- Try the predicate at every suffix of the list. -/
def anySuffix (p : List Char → Bool) : List Char → Bool
  | [] => p []
  | c :: cs => p (c :: cs) || anySuffix p cs

/-- The URL with its scheme part (through `://`) removed, if present. -/
def afterSchemeL (url : List Char) : List Char :=
  match afterPat "://".data url with
  | some r => r
  | none => url

/-- Suffixes of the host that begin right after a `.` (stopping at the
first `/`): the candidate positions for the `||` domain anchor. -/
def dotSuffixes : List Char → List (List Char)
  | [] => []
  | c :: cs =>
    if c == '/' then []
    else if c == '.' then cs :: dotSuffixes cs
    else dotSuffixes cs

/-- Modelled from the spec: positions where a `||`-anchored pattern may
start — the beginning of the host and each later domain label. -/
def domainStarts (url : List Char) : List (List Char) :=
  afterSchemeL url :: dotSuffixes (afterSchemeL url)

/-- Modelled from the spec: whole-pattern match of a URL (section 4.2,
condition (a)): start-anchored patterns match only at the start,
`||`-anchored ones at a domain label, all others at any position. -/
def patMatches (toks : List PatToken) (url : List Char) : Bool :=
  match toks with
  | PatToken.startAnchor :: ts => matchSeq ts url
  | PatToken.domainAnchor :: ts => (domainStarts url).any (fun cs => matchSeq ts cs)
  | ts => anySuffix (fun cs => matchSeq ts cs) url

/-- The context domain equals the given entry or is a subdomain of it. -/
def domainOrParent (ctx dd : List Char) : Bool :=
  ctx == dd || endsWithL ctx ('.' :: dd)

/-- Modelled from the spec: condition (b) of section 4.2 — the domain
include set (when non-empty) must cover the context domain, and the
exclude set must not. -/
def domainApplies (r : Rule) (d : List Char) : Bool :=
  (r.domain_include.isEmpty || r.domain_include.any (fun dd => domainOrParent d dd))
    && !(r.domain_exclude.any (fun dd => domainOrParent d dd))

/-- Host portion of a URL: after the scheme, up to the first `/` or `:`. -/
def hostOf (url : List Char) : List Char :=
  (afterSchemeL url).takeWhile (fun c => !(c == '/' || c == ':'))

/-- Modelled from the spec: a request is third-party when the context
domain differs from (is not the registrable parent of) the URL's host. -/
def isThirdParty (url domain : List Char) : Bool :=
  !(hostOf url == domain || endsWithL (hostOf url) ('.' :: domain))

/-- Condition (c) of section 4.2: the rule's third-party tristate. -/
def thirdPartyOk (r : Rule) (url domain : List Char) : Bool :=
  match r.third_party with
  | ThirdParty.any => true
  | ThirdParty.thirdOnly => isThirdParty url domain
  | ThirdParty.firstOnly => !isThirdParty url domain

/-- Modelled from the spec: condition (d) of section 4.2 — a caller
that supplies no resource type is treated as the default "other" type;
otherwise the mask must contain the supplied type. -/
def resourceCond (m : ResourceMask) : Option ResourceType → Bool
  | Option.none => m.other
  | Option.some t => maskGet m t

/-- Modelled from the spec: a rule matches when all four conditions
(a)-(d) of section 4.2 hold. -/
def ruleMatches (r : Rule) (url domain : List Char) (rt : Option ResourceType) : Bool :=
  patMatches r.pattern url && domainApplies r domain
    && thirdPartyOk r url domain && resourceCond r.resource_mask rt

/-- Modelled from the spec: the rules a URL probe must consult — every
bucket whose shortcut key occurs in the URL, then the generic bucket. -/
def candidateRules (b : Bucket) (url : List Char) : List Rule :=
  (b.byKey.foldr (fun kv acc => if containsPat kv.1 url then kv.2 ++ acc else acc) [])
    ++ b.generic

/-- Modelled from the spec: AdBlockClient::matches — any matching
exception rule forces `false`; otherwise any matching block rule gives
`true`; otherwise `false` (section 4.2, steps 3-6). -/
def clientMatches (i : Index) (url domain : List Char) (rt : Option ResourceType) : Bool :=
  if (candidateRules i.exceptions url).any (fun r => ruleMatches r url domain rt)
  then false
  else (candidateRules i.block url).any (fun r => ruleMatches r url domain rt)

/- ----------------------------------------------------------------
   Serializer.  Modelled from the spec (section 4.3): the engine's
   serialize/deserialize live in ad_block_client.cc, not among the
   sources.  The format is magic-prefixed and versioned; deserialize
   rejects bad magic, bad version and truncated buffers.
   ---------------------------------------------------------------- -/

def MAGIC : List Nat := [65, 66, 75, 49]

def FORMAT_VERSION : Nat := 1

def flatCat : List (List Nat) → List Nat
  | [] => []
  | x :: xs => x ++ flatCat xs

def encChars (s : List Char) : List Nat := s.length :: s.map Char.toNat

def encCount (f : α → List Nat) (xs : List α) : List Nat :=
  xs.length :: flatCat (xs.map f)

def encBool (b : Bool) : Nat := if b then 1 else 0

def encTok : PatToken → List Nat
  | PatToken.lit s => 0 :: encChars s
  | PatToken.wild => [1]
  | PatToken.sep => [2]
  | PatToken.startAnchor => [3]
  | PatToken.endAnchor => [4]
  | PatToken.domainAnchor => [5]

def encThird : ThirdParty → Nat
  | ThirdParty.any => 0
  | ThirdParty.firstOnly => 1
  | ThirdParty.thirdOnly => 2

def encMask (m : ResourceMask) : List Nat :=
  [encBool m.script, encBool m.image, encBool m.stylesheet, encBool m.xhr, encBool m.other]

def encOptChars : Option (List Char) → List Nat
  | none => [0]
  | some s => 1 :: encChars s

def encRule (r : Rule) : List Nat :=
  encCount encTok r.pattern ++ [encBool r.is_exception]
    ++ encCount encChars r.domain_include ++ encCount encChars r.domain_exclude
    ++ [encThird r.third_party] ++ encMask r.resource_mask
    ++ encOptChars r.shortcut

def encBucket (b : Bucket) : List Nat :=
  encCount (fun kv => encChars kv.1 ++ encCount encRule kv.2) b.byKey
    ++ encCount encRule b.generic

/-- Modelled from the spec: serialize — magic, version, then both
partitions of the Index (section 4.3). -/
def serializeIndex (i : Index) : List Nat :=
  MAGIC ++ [FORMAT_VERSION] ++ encBucket i.block ++ encBucket i.exceptions

def decChars (bs : List Nat) : Option (List Char × List Nat) :=
  match bs with
  | [] => none
  | n :: rest =>
    if n ≤ rest.length then some ((rest.take n).map Char.ofNat, rest.drop n)
    else none

def decListN (f : List Nat → Option (α × List Nat)) :
    Nat → List Nat → Option (List α × List Nat)
  | 0, bs => some ([], bs)
  | n + 1, bs =>
    match f bs with
    | none => none
    | some (a, bs2) =>
      match decListN f n bs2 with
      | none => none
      | some (as, bs3) => some (a :: as, bs3)

def decCount (f : List Nat → Option (α × List Nat)) (bs : List Nat) :
    Option (List α × List Nat) :=
  match bs with
  | [] => none
  | n :: rest => decListN f n rest

def decBool : List Nat → Option (Bool × List Nat)
  | [] => none
  | n :: rest =>
    if n == 0 then some (false, rest)
    else if n == 1 then some (true, rest)
    else none

def decTok : List Nat → Option (PatToken × List Nat)
  | [] => none
  | t :: rest =>
    if t == 0 then
      match decChars rest with
      | some (s, bs) => some (PatToken.lit s, bs)
      | none => none
    else if t == 1 then some (PatToken.wild, rest)
    else if t == 2 then some (PatToken.sep, rest)
    else if t == 3 then some (PatToken.startAnchor, rest)
    else if t == 4 then some (PatToken.endAnchor, rest)
    else if t == 5 then some (PatToken.domainAnchor, rest)
    else none

def decThird : List Nat → Option (ThirdParty × List Nat)
  | [] => none
  | n :: rest =>
    if n == 0 then some (ThirdParty.any, rest)
    else if n == 1 then some (ThirdParty.firstOnly, rest)
    else if n == 2 then some (ThirdParty.thirdOnly, rest)
    else none

def decMask (bs : List Nat) : Option (ResourceMask × List Nat) :=
  match decBool bs with
  | none => none
  | some (s, bs1) =>
    match decBool bs1 with
    | none => none
    | some (im, bs2) =>
      match decBool bs2 with
      | none => none
      | some (st, bs3) =>
        match decBool bs3 with
        | none => none
        | some (x, bs4) =>
          match decBool bs4 with
          | none => none
          | some (o, bs5) => some (⟨s, im, st, x, o⟩, bs5)

def decOptChars : List Nat → Option (Option (List Char) × List Nat)
  | [] => none
  | n :: rest =>
    if n == 0 then some (none, rest)
    else if n == 1 then
      match decChars rest with
      | some (s, bs) => some (some s, bs)
      | none => none
    else none

def decRule (bs : List Nat) : Option (Rule × List Nat) :=
  match decCount decTok bs with
  | none => none
  | some (toks, bs1) =>
    match decBool bs1 with
    | none => none
    | some (exc, bs2) =>
      match decCount decChars bs2 with
      | none => none
      | some (di, bs3) =>
        match decCount decChars bs3 with
        | none => none
        | some (de, bs4) =>
          match decThird bs4 with
          | none => none
          | some (tp, bs5) =>
            match decMask bs5 with
            | none => none
            | some (m, bs6) =>
              match decOptChars bs6 with
              | none => none
              | some (sc, bs7) =>
                some ({ pattern := toks, is_exception := exc,
                        domain_include := di, domain_exclude := de,
                        third_party := tp, resource_mask := m,
                        shortcut := sc }, bs7)

def decKeyed (bs : List Nat) : Option ((List Char × List Rule) × List Nat) :=
  match decChars bs with
  | none => none
  | some (k, bs1) =>
    match decCount decRule bs1 with
    | none => none
    | some (rs, bs2) => some ((k, rs), bs2)

def decBucket (bs : List Nat) : Option (Bucket × List Nat) :=
  match decCount decKeyed bs with
  | none => none
  | some (bk, bs1) =>
    match decCount decRule bs1 with
    | none => none
    | some (g, bs2) => some (⟨bk, g⟩, bs2)

/-- Modelled from the spec: deserialize — reject an unrecognized magic
or version and any truncated or trailing-garbage buffer; otherwise
decode both partitions (section 4.3). -/
def deserializeIndex (bs : List Nat) : Option Index :=
  if bs.take 4 == MAGIC then
    match bs.drop 4 with
    | [] => none
    | v :: rest =>
      if v == FORMAT_VERSION then
        match decBucket rest with
        | none => none
        | some (blk, rest2) =>
          match decBucket rest2 with
          | none => none
          | some (exc, rest3) => if rest3.isEmpty then some ⟨blk, exc⟩ else none
      else none
  else none

/- ----------------------------------------------------------------
   The engine object and its methods, as the binding sees them.
   ---------------------------------------------------------------- -/

/-- The AdBlockClient as held by the binding: its Index. -/
structure EngineState where
  index : Index
deriving DecidableEq, Repr

/-- Modelled from the spec: client->parse(data) — merge the parsed
rules of the text into the current Index; the counts are computed but
the C binding discards the engine's return value. -/
def clientParse (text : String) (e : EngineState) : EngineState × Nat × Nat :=
  match engineParse text.data e.index with
  | (i, a, sk) => (⟨i⟩, a, sk)

/-- Modelled from the spec: client->serialize — the binary blob. -/
def clientSerialize (e : EngineState) : List Nat := serializeIndex e.index

/-- Modelled from the spec: client->deserialize(buffer) — replace the
Index wholesale on success, fail cleanly (leaving it unchanged) on bad
magic/version/truncation; the boolean reports which happened. -/
def clientDeserialize (bs : List Nat) (e : EngineState) : Bool × EngineState :=
  match deserializeIndex bs with
  | some i => (true, ⟨i⟩)
  | none => (false, e)

/- ----------------------------------------------------------------
   The binding layer, translated from src/c/adblock.c.
   ---------------------------------------------------------------- -/

/-- A Python argument as PyArg_ParseTuple sees it. -/
inductive PyValue where
  | str : String → PyValue
  | other : PyValue
deriving DecidableEq, Repr

/-- A binding call's outcome: None, a boolean, a pair, or a raised
error (the NULL return of a failed PyArg_ParseTuple). -/
inductive PyResult where
  | none : PyResult
  | bool : Bool → PyResult
  | pair : Nat → Nat → PyResult
  | exn : PyResult
deriving DecidableEq, Repr

/-- PyArg_ParseTuple(args, "s", ...): exactly one string argument. -/
def parseTuple1 : List PyValue → Option String
  | [PyValue.str s] => some s
  | _ => Option.none

/-- PyArg_ParseTuple(args, "ss", ...): exactly two string arguments. -/
def parseTuple2 : List PyValue → Option (String × String)
  | [PyValue.str a, PyValue.str b] => some (a, b)
  | _ => Option.none

/-- Kinds of long-running engine work a binding call performs. -/
inductive WorkKind where
  | parseWork : WorkKind
  | matchWork : WorkKind
  | serializeWork : WorkKind
  | writeWork : WorkKind
  | readWork : WorkKind
  | deserializeWork : WorkKind
deriving DecidableEq, Repr

/-- Observable events of a binding call: GIL release/acquire
(Py_BEGIN/END_ALLOW_THREADS), engine work, and the retained buffer's
delete[]/new[] in AdBlock_load. -/
inductive Event where
  | gilRelease : Event
  | gilAcquire : Event
  | work : WorkKind → Event
  | buffFree : Event
  | buffAlloc : Event
deriving DecidableEq, Repr

/-- The binding object: the AdBlockClient and the retained `data`
buffer (NULL modelled as `none`), as in the AdBlock struct. -/
structure AdBlockState where
  client : EngineState
  data : Option (List Nat)
deriving DecidableEq, Repr

/-- AdBlock_init: a fresh AdBlockClient and a NULL data pointer. -/
def adBlockInit : AdBlockState := { client := ⟨emptyIndex⟩, data := Option.none }

/-- An input file as AdBlock_load sees it: the size reported by
tellg, and the bytes the subsequent read actually extracts (the read
succeeds exactly when it delivers all `size` bytes). -/
structure FileData where
  size : Nat
  content : List Nat
deriving DecidableEq, Repr

def readOk (f : FileData) : Bool := f.content.length == f.size

/-- AdBlock_parse (src/c/adblock.c:60-73): parse the string argument
into the client between Py_BEGIN/END_ALLOW_THREADS, return None. -/
def AdBlock_parseFn (s : AdBlockState) (args : List PyValue) :
    PyResult × AdBlockState × List Event :=
  match parseTuple1 args with
  | Option.none => (PyResult.exn, s, [])
  | some text =>
    (PyResult.none, { s with client := (clientParse text s.client).1 },
     [Event.gilRelease, Event.work WorkKind.parseWork, Event.gilAcquire])

/-- AdBlock_matches (src/c/adblock.c:75-95): evaluate the client on the
two string arguments with FONoFilterOption (no resource type), without
releasing the GIL (the Py_BEGIN_ALLOW_THREADS there is commented out). -/
def AdBlock_matchesFn (s : AdBlockState) (args : List PyValue) :
    PyResult × AdBlockState × List Event :=
  match parseTuple2 args with
  | Option.none => (PyResult.exn, s, [])
  | some (url, domain) =>
    (PyResult.bool (clientMatches s.client.index url.data domain.data Option.none), s,
     [Event.work WorkKind.matchWork])

/-- AdBlock_save (src/c/adblock.c:97-118): False when the ofstream
fails to open; otherwise serialize and write between
Py_BEGIN/END_ALLOW_THREADS and return True — the result of the write
itself is never inspected.  The world maps a path to `none` when the
file cannot be opened, and to the write's success flag otherwise. -/
def AdBlock_saveFn (w : String → Option Bool) (s : AdBlockState)
    (args : List PyValue) : PyResult × AdBlockState × List Event :=
  match parseTuple1 args with
  | Option.none => (PyResult.exn, s, [])
  | some path =>
    match w path with
    | Option.none => (PyResult.bool false, s, [])
    | some _writeOk =>
      let _buffer := clientSerialize s.client
      (PyResult.bool true, s,
       [Event.gilRelease, Event.work WorkKind.serializeWork,
        Event.work WorkKind.writeWork, Event.gilAcquire])

/-- AdBlock_load (src/c/adblock.c:120-151): False when the ifstream
fails to open; otherwise, inside Py_BEGIN/END_ALLOW_THREADS, delete[]
the retained buffer (when present), allocate a new one and read into
it; when the read succeeds, call deserialize (its result is discarded)
and return True, else return False with the buffer already replaced. -/
def AdBlock_loadFn (w : String → Option FileData) (s : AdBlockState)
    (args : List PyValue) : PyResult × AdBlockState × List Event :=
  match parseTuple1 args with
  | Option.none => (PyResult.exn, s, [])
  | some path =>
    match w path with
    | Option.none => (PyResult.bool false, s, [])
    | some f =>
      let pre := [Event.gilRelease]
        ++ (match s.data with | some _ => [Event.buffFree] | Option.none => [])
        ++ [Event.buffAlloc, Event.work WorkKind.readWork]
      if readOk f then
        (PyResult.bool true,
         { client := (clientDeserialize f.content s.client).2, data := some f.content },
         pre ++ [Event.work WorkKind.deserializeWork, Event.gilAcquire])
      else
        (PyResult.bool false, { s with data := some f.content },
         pre ++ [Event.gilAcquire])

/- ----------------------------------------------------------------
   Trace predicates used by the concurrency and invariant claims.
   ---------------------------------------------------------------- -/

/-- Every engine-work event happens while the GIL is released: scan
the trace carrying the released flag. -/
def workCovered : Bool → List Event → Bool
  | _, [] => true
  | _, Event.gilRelease :: es => workCovered true es
  | _, Event.gilAcquire :: es => workCovered false es
  | r, Event.work _ :: es => r && workCovered r es
  | r, Event.buffFree :: es => workCovered r es
  | r, Event.buffAlloc :: es => workCovered r es

/-- The first buffer allocation in the trace (if any) is preceded by a
buffer free. -/
def freedBeforeAlloc : List Event → Bool
  | [] => true
  | Event.buffAlloc :: _ => false
  | Event.buffFree :: _ => true
  | _ :: es => freedBeforeAlloc es

/- ----------------------------------------------------------------
   Rule counting, for the parse-merge claims.
   ---------------------------------------------------------------- -/

def bucketCount (b : Bucket) : Nat :=
  (b.byKey.map (fun kv => kv.2.length)).sum + b.generic.length

def ruleCount (i : Index) : Nat := bucketCount i.block + bucketCount i.exceptions

/- ----------------------------------------------------------------
   Helper lemmas about rule counting under insertion.
   ---------------------------------------------------------------- -/

theorem addToKey_count (l : List (List Char × List Rule)) (k : List Char) (r : Rule) :
    ((addToKey l k r).map (fun kv => kv.2.length)).sum
      = (l.map (fun kv => kv.2.length)).sum + 1 := by
  induction l with
  | nil => simp [addToKey]
  | cons kv rest ih =>
    obtain ⟨k2, rs⟩ := kv
    by_cases h : k2 == k
    · simp [addToKey, h]
      omega
    · simp [addToKey, h, ih]
      omega

theorem bucketInsert_count (b : Bucket) (r : Rule) :
    bucketCount (bucketInsert b r) = bucketCount b + 1 := by
  cases hs : r.shortcut with
  | none =>
    simp [bucketInsert, hs, bucketCount]
    omega
  | some k =>
    simp [bucketInsert, hs, bucketCount, addToKey_count]
    omega

theorem indexInsert_count (i : Index) (r : Rule) :
    ruleCount (indexInsert i r) = ruleCount i + 1 := by
  by_cases h : r.is_exception <;>
    simp [indexInsert, h, ruleCount, bucketInsert_count] <;> omega

theorem engineParseLines_counts (ls : List (List Char)) :
    ∀ (i : Index) (a sk : Nat),
      (engineParseLines ls (i, a, sk)).2.1 + (engineParseLines ls (i, a, sk)).2.2
          = a + sk + ls.length
      ∧ ruleCount (engineParseLines ls (i, a, sk)).1 + a
          = ruleCount i + (engineParseLines ls (i, a, sk)).2.1 := by
  induction ls with
  | nil => intro i a sk; simp [engineParseLines]
  | cons l ls ih =>
    intro i a sk
    cases hpl : parseLine l with
    | none =>
      simp only [engineParseLines, hpl, List.length_cons]
      have h := ih i a (sk + 1)
      exact ⟨by omega, h.2⟩
    | some r =>
      simp only [engineParseLines, hpl, List.length_cons]
      have h := ih (indexInsert i r) (a + 1) sk
      have hc := indexInsert_count i r
      exact ⟨by omega, by omega⟩

/- ----------------------------------------------------------------
   Claim theorems.
   ---------------------------------------------------------------- -/

/-- Claim C1 (counterexample): a file whose bytes are successfully read
but whose content is not a valid serialized Index (here `[9, 9]`, which
deserialize rejects) makes `load` return True, not the False the claim
demands. -/
theorem c1_counterexample :
    (AdBlock_loadFn (fun _ => some ⟨2, [9, 9]⟩) adBlockInit [PyValue.str "p"]).1
        = PyResult.bool true
    ∧ deserializeIndex [9, 9] = Option.none
    ∧ PyResult.bool true ≠ PyResult.bool false := by
  decide

/-- Claim C1 (amended): `load` returns false exactly on I/O failure —
an unopenable path or a failed read; once the bytes are read
successfully it returns true regardless of whether they form a valid
serialized Index, because the deserialize result is discarded. -/
theorem c1_amended (w : String → Option FileData) (s : AdBlockState) (path : String) :
    (AdBlock_loadFn w s [PyValue.str path]).1
      = PyResult.bool (match w path with | Option.none => false | some f => readOk f) := by
  cases hw : w path with
  | none => simp [AdBlock_loadFn, parseTuple1, hw]
  | some f => cases hr : readOk f <;> simp [AdBlock_loadFn, parseTuple1, hw, hr]

/-- Claim C2 (counterexample): a `load` whose file opens but whose read
fails returns false, yet the retained data buffer has already been
replaced (old buffer `[7, 8]`, new partial buffer `[9]`). -/
theorem c2_counterexample :
    (AdBlock_loadFn (fun _ => some ⟨3, [9]⟩)
        { client := ⟨emptyIndex⟩, data := some [7, 8] } [PyValue.str "p"]).1
        = PyResult.bool false
    ∧ (AdBlock_loadFn (fun _ => some ⟨3, [9]⟩)
        { client := ⟨emptyIndex⟩, data := some [7, 8] } [PyValue.str "p"]).2.1.data
        = some [9]
    ∧ (some [9] : Option (List Nat)) ≠ some [7, 8] := by
  decide

/-- Claim C2 (amended): on every `load` that returns false the Index
(the client) is unchanged; the retained data buffer is also unchanged
when the file cannot be opened, but when the file opens and the read
fails the buffer has been replaced by the partial read's bytes. -/
theorem c2_amended (w : String → Option FileData) (s : AdBlockState) (path : String) :
    ((AdBlock_loadFn w s [PyValue.str path]).1 = PyResult.bool false →
        (AdBlock_loadFn w s [PyValue.str path]).2.1.client = s.client)
    ∧ (w path = Option.none → (AdBlock_loadFn w s [PyValue.str path]).2.1 = s)
    ∧ (∀ f, w path = some f → readOk f = false →
        (AdBlock_loadFn w s [PyValue.str path]).2.1.data = some f.content) := by
  refine ⟨?_, ?_, ?_⟩
  · intro h
    cases hw : w path with
    | none => simp [AdBlock_loadFn, parseTuple1, hw]
    | some f =>
      cases hr : readOk f
      · simp [AdBlock_loadFn, parseTuple1, hw, hr]
      · rw [c1_amended w s path, hw] at h
        simp [hr] at h
  · intro hw
    simp [AdBlock_loadFn, parseTuple1, hw]
  · intro f hw hr
    simp [AdBlock_loadFn, parseTuple1, hw, hr]

/-- Claim C2 (witness): the amended theorem applied at a concrete
read-failure: the buffer afterwards holds the partial bytes. -/
theorem c2_amended_witness :
    (AdBlock_loadFn (fun _ => some ⟨3, [9]⟩)
        { client := ⟨emptyIndex⟩, data := some [7, 8] } [PyValue.str "q"]).2.1.data
      = some [9] :=
  (c2_amended (fun _ => some ⟨3, [9]⟩)
      { client := ⟨emptyIndex⟩, data := some [7, 8] } "q").2.2 ⟨3, [9]⟩ rfl rfl

/-- Claim C3 (counterexample): when the output file opens but the
subsequent write fails (world reports the write's success as `false`),
`save` still returns True, not the False the claim demands. -/
theorem c3_counterexample :
    (AdBlock_saveFn (fun _ => some false) adBlockInit [PyValue.str "p"]).1
        = PyResult.bool true
    ∧ PyResult.bool true ≠ PyResult.bool false := by
  decide

/-- Claim C3 (amended): `save` returns false exactly when the output
file fails to open; after a successful open it returns true no matter
whether the write of the serialized bytes succeeded, because the write
result is never inspected. -/
theorem c3_amended (w : String → Option Bool) (s : AdBlockState) (path : String) :
    (AdBlock_saveFn w s [PyValue.str path]).1 = PyResult.bool (w path).isSome := by
  cases hw : w path <;> simp [AdBlock_saveFn, parseTuple1, hw]

/-- Claim C4 (confirmed): the public `matches` interface evaluates the
engine with no resource type supplied (FONoFilterOption), and the
matcher's condition (d) treats that default exactly as the "other"
resource type, so a rule whose mask includes "other" satisfies it. -/
theorem c4_default_resource_other (s : AdBlockState) (url domain : String) :
    (AdBlock_matchesFn s [PyValue.str url, PyValue.str domain]).1
        = PyResult.bool (clientMatches s.client.index url.data domain.data Option.none)
    ∧ ∀ m : ResourceMask, resourceCond m Option.none = m.other :=
  ⟨rfl, fun _ => rfl⟩

/-- Claim C5 (counterexample): `parse` hands None back to the caller —
not the (rules added, lines skipped) pair, which for the input "ad"
would be (1, 0). -/
theorem c5_counterexample :
    (AdBlock_parseFn adBlockInit [PyValue.str "ad"]).1 = PyResult.none
    ∧ (clientParse "ad" ⟨emptyIndex⟩).2 = (1, 0)
    ∧ PyResult.none ≠ PyResult.pair 1 0 := by
  decide

/-- Claim C5 (amended): for every input text, `parse` merges the parsed
rules into the engine state and returns None (no value) to the caller;
the (added, skipped) counts are not returned. -/
theorem c5_amended (s : AdBlockState) (t : String) :
    AdBlock_parseFn s [PyValue.str t]
      = (PyResult.none, { s with client := (clientParse t s.client).1 },
         [Event.gilRelease, Event.work WorkKind.parseWork, Event.gilAcquire]) := rfl

/-- Claim C6 (confirmed): `matches` is a pure function of the url, the
domain and the current Index — the result is computed by
`clientMatches` from exactly those, and the returned state is the input
state, so repeated invocations with no intervening mutation agree and
the Index is left unchanged. -/
theorem c6_matches_pure (s : AdBlockState) (url domain : String) :
    AdBlock_matchesFn s [PyValue.str url, PyValue.str domain]
      = (PyResult.bool (clientMatches s.client.index url.data domain.data Option.none),
         s, [Event.work WorkKind.matchWork]) := rfl

/-- Claim C7 (confirmed): `parse`, `save` and `load` perform all their
engine work between a GIL release and re-acquire (and do release it
whenever the work happens), while `matches` performs its evaluation
without ever releasing the GIL. -/
theorem c7_gil_discipline (s : AdBlockState) (text url domain p q : String)
    (w : String → Option Bool) (wl : String → Option FileData) :
    (AdBlock_parseFn s [PyValue.str text]).2.2
        = [Event.gilRelease, Event.work WorkKind.parseWork, Event.gilAcquire]
    ∧ (AdBlock_matchesFn s [PyValue.str url, PyValue.str domain]).2.2
        = [Event.work WorkKind.matchWork]
    ∧ workCovered false ((AdBlock_saveFn w s [PyValue.str p]).2.2) = true
    ∧ workCovered false ((AdBlock_loadFn wl s [PyValue.str q]).2.2) = true
    ∧ ((w p).isSome = true → Event.gilRelease ∈ (AdBlock_saveFn w s [PyValue.str p]).2.2)
    ∧ ((wl q).isSome = true →
        Event.gilRelease ∈ (AdBlock_loadFn wl s [PyValue.str q]).2.2) := by
  refine ⟨rfl, rfl, ?_, ?_, ?_, ?_⟩
  · cases hw : w p <;> simp [AdBlock_saveFn, parseTuple1, hw, workCovered]
  · cases hw : wl q with
    | none => simp [AdBlock_loadFn, parseTuple1, hw, workCovered]
    | some f =>
      cases hd : s.data <;> cases hr : readOk f <;>
        simp [AdBlock_loadFn, parseTuple1, hw, hd, hr, workCovered]
  · intro h
    cases hw : w p with
    | none => rw [hw] at h; simp at h
    | some b => simp [AdBlock_saveFn, parseTuple1, hw]
  · intro h
    cases hw : wl q with
    | none => rw [hw] at h; simp at h
    | some f =>
      cases hd : s.data <;> cases hr : readOk f <;>
        simp [AdBlock_loadFn, parseTuple1, hw, hd, hr]

/-- Claim C7 (witness): at a concrete openable save path and loadable
file, both traces do contain the GIL release. -/
theorem c7_gil_discipline_witness :
    Event.gilRelease ∈ (AdBlock_saveFn (fun _ => some true) adBlockInit
        [PyValue.str "p"]).2.2
    ∧ Event.gilRelease ∈ (AdBlock_loadFn (fun _ => some ⟨0, []⟩) adBlockInit
        [PyValue.str "q"]).2.2 :=
  ⟨(c7_gil_discipline adBlockInit "t" "u" "d" "p" "q"
      (fun _ => some true) (fun _ => some ⟨0, []⟩)).2.2.2.2.1 rfl,
   (c7_gil_discipline adBlockInit "t" "u" "d" "p" "q"
      (fun _ => some true) (fun _ => some ⟨0, []⟩)).2.2.2.2.2 rfl⟩

/-- Claim C8 (confirmed): for every input text the parse completes and
returns — every line is either added as a rule or skipped (the counts
sum to the number of lines), the surviving rules are merged into the
existing Index (its rule count grows by exactly the added count), and
the binding call returns None rather than raising. -/
theorem c8_parse_skips_and_merges (t : String) (i : Index) (s : AdBlockState) :
    (engineParse t.data i).2.1 + (engineParse t.data i).2.2 = (linesOf t.data).length
    ∧ ruleCount (engineParse t.data i).1 = ruleCount i + (engineParse t.data i).2.1
    ∧ (AdBlock_parseFn s [PyValue.str t]).1 = PyResult.none := by
  have h := engineParseLines_counts (linesOf t.data) i 0 0
  refine ⟨?_, ?_, rfl⟩
  · have h1 := h.1
    simp only [engineParse]
    omega
  · have h2 := h.2
    simp only [engineParse]
    omega

/-- Claim C9 (confirmed): when the arguments are not strings of the
required arity, each of the four operations raises at the boundary
(returns the error result) with the engine state unchanged and no
engine work performed. -/
theorem c9_arity_boundary (s : AdBlockState) (args : List PyValue)
    (w : String → Option Bool) (wl : String → Option FileData) :
    (parseTuple1 args = Option.none →
        AdBlock_parseFn s args = (PyResult.exn, s, [])
        ∧ AdBlock_saveFn w s args = (PyResult.exn, s, [])
        ∧ AdBlock_loadFn wl s args = (PyResult.exn, s, []))
    ∧ (parseTuple2 args = Option.none →
        AdBlock_matchesFn s args = (PyResult.exn, s, [])) := by
  constructor
  · intro h
    refine ⟨?_, ?_, ?_⟩ <;> simp [AdBlock_parseFn, AdBlock_saveFn, AdBlock_loadFn, h]
  · intro h
    simp [AdBlock_matchesFn, h]

/-- Claim C9 (witness): the empty argument tuple fails both formats, and
all four operations return the error with the state untouched. -/
theorem c9_arity_boundary_witness :
    AdBlock_parseFn adBlockInit [] = (PyResult.exn, adBlockInit, [])
    ∧ AdBlock_matchesFn adBlockInit [] = (PyResult.exn, adBlockInit, []) :=
  ⟨((c9_arity_boundary adBlockInit [] (fun _ => Option.none)
      (fun _ => Option.none)).1 rfl).1,
   (c9_arity_boundary adBlockInit [] (fun _ => Option.none)
      (fun _ => Option.none)).2 rfl⟩

/-- Claim C10 (counterexample): after a successful load of `[7, 8]`
followed by a load that opens but whose read fails, the retained buffer
holds the failed load's partial bytes `[9]` — not the bytes of the most
recent load that was opened and successfully read. -/
theorem c10_counterexample :
    (AdBlock_loadFn (fun _ => some ⟨2, [7, 8]⟩) adBlockInit [PyValue.str "a"]).1
        = PyResult.bool true
    ∧ ((AdBlock_loadFn (fun _ => some ⟨2, [7, 8]⟩) adBlockInit
        [PyValue.str "a"]).2.1).data = some [7, 8]
    ∧ (AdBlock_loadFn (fun _ => some ⟨3, [9]⟩)
        ((AdBlock_loadFn (fun _ => some ⟨2, [7, 8]⟩) adBlockInit
          [PyValue.str "a"]).2.1) [PyValue.str "a"]).1 = PyResult.bool false
    ∧ (AdBlock_loadFn (fun _ => some ⟨3, [9]⟩)
        ((AdBlock_loadFn (fun _ => some ⟨2, [7, 8]⟩) adBlockInit
          [PyValue.str "a"]).2.1) [PyValue.str "a"]).2.1.data = some [9]
    ∧ (some [9] : Option (List Nat)) ≠ some [7, 8] := by
  decide

/-- Claim C10 (amended): the retained buffer holds the bytes produced
by the most recent `load` whose file was opened — the full content when
the read succeeded, the partial content when it failed — and is
untouched by a load that cannot open its file; each allocation is
preceded by freeing the previous buffer and a load allocates at most
one buffer, so at most one buffer is ever retained. -/
theorem c10_amended (w : String → Option FileData) (s : AdBlockState) (path : String) :
    (w path = Option.none → (AdBlock_loadFn w s [PyValue.str path]).2.1.data = s.data)
    ∧ (∀ f, w path = some f →
        (AdBlock_loadFn w s [PyValue.str path]).2.1.data = some f.content)
    ∧ (∀ f, w path = some f → s.data.isSome = true →
        freedBeforeAlloc ((AdBlock_loadFn w s [PyValue.str path]).2.2) = true)
    ∧ ((AdBlock_loadFn w s [PyValue.str path]).2.2).count Event.buffAlloc ≤ 1 := by
  refine ⟨?_, ?_, ?_, ?_⟩
  · intro hw
    simp [AdBlock_loadFn, parseTuple1, hw]
  · intro f hw
    cases hr : readOk f <;> simp [AdBlock_loadFn, parseTuple1, hw, hr]
  · intro f hw hd
    cases hdd : s.data with
    | none => rw [hdd] at hd; simp at hd
    | some d =>
      cases hr : readOk f <;>
        simp [AdBlock_loadFn, parseTuple1, hw, hdd, hr, freedBeforeAlloc]
  · cases hw : w path with
    | none => simp [AdBlock_loadFn, parseTuple1, hw]
    | some f =>
      cases hdd : s.data <;> cases hr : readOk f <;>
        simp [AdBlock_loadFn, parseTuple1, hw, hdd, hr, List.count_cons]

/-- Claim C10 (witness): the amended theorem at a concrete read-failing
load over a retained buffer: the buffer becomes the partial bytes and
the trace frees before it allocates. -/
theorem c10_amended_witness :
    (AdBlock_loadFn (fun _ => some ⟨3, [9]⟩)
        { client := ⟨emptyIndex⟩, data := some [7, 8] } [PyValue.str "a"]).2.1.data
        = some [9]
    ∧ freedBeforeAlloc ((AdBlock_loadFn (fun _ => some ⟨3, [9]⟩)
        { client := ⟨emptyIndex⟩, data := some [7, 8] } [PyValue.str "a"]).2.2)
        = true :=
  ⟨(c10_amended (fun _ => some ⟨3, [9]⟩)
      { client := ⟨emptyIndex⟩, data := some [7, 8] } "a").2.1 ⟨3, [9]⟩ rfl,
   (c10_amended (fun _ => some ⟨3, [9]⟩)
      { client := ⟨emptyIndex⟩, data := some [7, 8] } "a").2.2.1 ⟨3, [9]⟩ rfl rfl⟩

end Adblock
